import Mathlib

set_option maxRecDepth 100000

/-!
# Verification of the ace-payments razorpay backend

Shallow embedding of `src/payment-service.js` (plan catalog, order creation,
signature verification, payment reconciliation) and of the express server's
`POST /success` handler.  Machine integers are modelled as `Nat` with explicit
reduction modulo `2 ^ 32` where 32-bit overflow matters; JavaScript string
falsiness (`!s`) is modelled as emptiness; `process.env` values are threaded as
`Option String` parameters; the Supabase tables are association lists inside an
explicit `DbState`; a fallible store call is modelled by a fault flag telling
whether the call reports an error.
-/

namespace AcePayments

/-! ## Bytes, UTF-8 and lowercase hex -/

/-- UTF-8 encoding of one character (codepoint to 1-4 bytes). -/
def utf8Char (c : Char) : List Nat :=
  let n := c.toNat
  if n < 0x80 then [n]
  else if n < 0x800 then
    [0xC0 ||| (n >>> 6), 0x80 ||| (n &&& 0x3F)]
  else if n < 0x10000 then
    [0xE0 ||| (n >>> 12), 0x80 ||| ((n >>> 6) &&& 0x3F), 0x80 ||| (n &&& 0x3F)]
  else
    [0xF0 ||| (n >>> 18), 0x80 ||| ((n >>> 12) &&& 0x3F),
     0x80 ||| ((n >>> 6) &&& 0x3F), 0x80 ||| (n &&& 0x3F)]

/-- The UTF-8 bytes of a string. -/
def utf8Bytes (s : String) : List Nat :=
  (s.data.map utf8Char).flatten

/-- Lowercase hexadecimal digit for `n < 16`. -/
def hexDigit (n : Nat) : Char :=
  if n < 10 then Char.ofNat (48 + n) else Char.ofNat (87 + n)

/-- Lowercase hex encoding of a byte list (two digits per byte), as
`Buffer.digest('hex')` produces. -/
def hexOfBytes (l : List Nat) : String :=
  String.mk ((l.map fun b => [hexDigit (b / 16), hexDigit (b % 16)]).flatten)

/-! ## SHA-256 (FIPS 180-4) over byte lists -/

/-- `2 ^ 32`, the modulus for 32-bit words. -/
def M32 : Nat := 4294967296

/-- 32-bit addition. -/
def add32 (a b : Nat) : Nat := (a + b) % M32

/-- 32-bit right rotation. -/
def rotr32 (x n : Nat) : Nat := ((x >>> n) ||| (x <<< (32 - n))) % M32

/-- SHA-256 `Ch`: on 32 bits, complement is xor with the all-ones mask. -/
def ch32 (x y z : Nat) : Nat := (x &&& y) ^^^ ((x ^^^ 0xFFFFFFFF) &&& z)

/-- SHA-256 `Maj`. -/
def maj32 (x y z : Nat) : Nat := (x &&& y) ^^^ (x &&& z) ^^^ (y &&& z)

/-- SHA-256 big Sigma-0. -/
def bSig0 (x : Nat) : Nat := (rotr32 x 2) ^^^ (rotr32 x 13) ^^^ (rotr32 x 22)

/-- SHA-256 big Sigma-1. -/
def bSig1 (x : Nat) : Nat := (rotr32 x 6) ^^^ (rotr32 x 11) ^^^ (rotr32 x 25)

/-- SHA-256 small sigma-0. -/
def sSig0 (x : Nat) : Nat := (rotr32 x 7) ^^^ (rotr32 x 18) ^^^ (x >>> 3)

/-- SHA-256 small sigma-1. -/
def sSig1 (x : Nat) : Nat := (rotr32 x 17) ^^^ (rotr32 x 19) ^^^ (x >>> 10)

/-- The 64 SHA-256 round constants. -/
def K256 : List Nat :=
  [1116352408, 1899447441, 3049323471, 3921009573, 961987163, 1508970993,
   2453635748, 2870763221, 3624381080, 310598401, 607225278, 1426881987,
   1925078388, 2162078206, 2614888103, 3248222580, 3835390401, 4022224774,
   264347078, 604807628, 770255983, 1249150122, 1555081692, 1996064986,
   2554220882, 2821834349, 2952996808, 3210313671, 3336571891, 3584528711,
   113926993, 338241895, 666307205, 773529912, 1294757372, 1396182291,
   1695183700, 1986661051, 2177026350, 2456956037, 2730485921, 2820302411,
   3259730800, 3345764771, 3516065817, 3600352804, 4094571909, 275423344,
   430227734, 506948616, 659060556, 883997877, 958139571, 1322822218,
   1537002063, 1747873779, 1955562222, 2024104815, 2227730452, 2361852424,
   2428436474, 2756734187, 3204031479, 3329325298]

/-- The SHA-256 initial hash value. -/
def H256 : List Nat :=
  [1779033703, 3144134277, 1013904242, 2773480762,
   1359893119, 2600822924, 528734635, 1541459225]

/-- Big-endian 32-bit words from a byte list (length a multiple of 4). -/
def wordsOfBytes : List Nat → List Nat
  | a :: b :: c :: d :: rest =>
      (((a * 256 + b) * 256 + c) * 256 + d) :: wordsOfBytes rest
  | _ => []

/-- The next word of the SHA-256 message schedule, from the words so far. -/
def nextW (w : List Nat) : Nat :=
  let len := w.length
  add32 (add32 (sSig1 (w.getD (len - 2) 0)) (w.getD (len - 7) 0))
        (add32 (sSig0 (w.getD (len - 15) 0)) (w.getD (len - 16) 0))

/-- Extend the 16-word schedule by `n` more words. -/
def extendW (w : List Nat) : Nat → List Nat
  | 0 => w
  | n + 1 => extendW (w ++ [nextW w]) n

/-- The eight SHA-256 working registers. -/
structure Regs where
  a : Nat
  b : Nat
  c : Nat
  d : Nat
  e : Nat
  f : Nat
  g : Nat
  hh : Nat
deriving DecidableEq

/-- One SHA-256 compression round with a (constant, schedule-word) pair. -/
def sha256Round (r : Regs) (kw : Nat × Nat) : Regs :=
  let t1 := add32 r.hh (add32 (bSig1 r.e) (add32 (ch32 r.e r.f r.g) (add32 kw.1 kw.2)))
  let t2 := add32 (bSig0 r.a) (maj32 r.a r.b r.c)
  ⟨add32 t1 t2, r.a, r.b, r.c, add32 r.d t1, r.e, r.f, r.g⟩

/-- SHA-256 compression of one 64-byte block into the running hash. -/
def sha256Compress (hs block : List Nat) : List Nat :=
  let w := extendW (wordsOfBytes block) 48
  let hv := fun (i : Nat) => hs.getD i 0
  let r0 : Regs := ⟨hv 0, hv 1, hv 2, hv 3, hv 4, hv 5, hv 6, hv 7⟩
  let r := (K256.zip w).foldl sha256Round r0
  [add32 (hv 0) r.a, add32 (hv 1) r.b, add32 (hv 2) r.c, add32 (hv 3) r.d,
   add32 (hv 4) r.e, add32 (hv 5) r.f, add32 (hv 6) r.g, add32 (hv 7) r.hh]

/-- Process a padded message 64 bytes at a time.  Structural recursion on a
fuel argument (each step consumes 64 bytes, so any fuel at least the byte
length is enough); `sha256` passes the byte length as fuel. -/
def sha256BlocksF : Nat → List Nat → List Nat → List Nat
  | 0, hs, _ => hs
  | _ + 1, hs, [] => hs
  | fuel + 1, hs, b :: rest =>
      sha256BlocksF fuel (sha256Compress hs ((b :: rest).take 64)) (rest.drop 63)

/-- Big-endian 8-byte encoding of the bit length. -/
def lenBytes64 (n : Nat) : List Nat :=
  [(n >>> 56) % 256, (n >>> 48) % 256, (n >>> 40) % 256, (n >>> 32) % 256,
   (n >>> 24) % 256, (n >>> 16) % 256, (n >>> 8) % 256, n % 256]

/-- SHA-256 padding: `0x80`, zeros to 56 mod 64, then the 64-bit bit length. -/
def sha256Pad (msg : List Nat) : List Nat :=
  let padZeros := (64 - ((msg.length + 9) % 64)) % 64
  msg ++ 0x80 :: (List.replicate padZeros 0 ++ lenBytes64 (msg.length * 8))

/-- Big-endian bytes of one 32-bit word. -/
def bytesOfWord (w : Nat) : List Nat :=
  [(w >>> 24) % 256, (w >>> 16) % 256, (w >>> 8) % 256, w % 256]

/-- SHA-256 digest (32 bytes) of a byte list. -/
def sha256 (msg : List Nat) : List Nat :=
  let padded := sha256Pad msg
  ((sha256BlocksF padded.length H256 padded).map bytesOfWord).flatten

/-! ## HMAC-SHA256 (RFC 2104, block size 64) -/

/-- HMAC-SHA256 of a message under a key, both byte lists. -/
def hmacSha256 (key msg : List Nat) : List Nat :=
  let k0 := if 64 < key.length then sha256 key else key
  let kp := k0 ++ List.replicate (64 - k0.length) 0
  sha256 ((kp.map fun b => b ^^^ 0x5c) ++ sha256 ((kp.map fun b => b ^^^ 0x36) ++ msg))

/-- Lowercase hex HMAC-SHA256 of a message string keyed by a secret string,
both taken as their UTF-8 bytes — what
`crypto.createHmac('sha256', secret).update(msg).digest('hex')` computes. -/
def hmacSha256Hex (secret msg : String) : String :=
  hexOfBytes (hmacSha256 (utf8Bytes secret) (utf8Bytes msg))

/-! ## Signature verifier (`verifyPaymentSignature`) -/

/-- JavaScript falsiness of an env string: absent (`undefined`) or empty. -/
def falsyStr : Option String → Bool
  | none => true
  | some s => s == ""

/-- Embedding of `verifyPaymentSignature(orderId, paymentId, signature)` from
`src/payment-service.js` lines 95-113, with `process.env.RAZORPAY_KEY_SECRET`
threaded as the `keySecret` parameter.  Returns `false` when the secret is
falsy, otherwise compares the supplied signature against the lowercase hex
HMAC-SHA256 of `orderId + '|' + paymentId`. -/
def verifyPaymentSignature (keySecret : Option String)
    (orderId paymentId signature : String) : Bool :=
  if falsyStr keySecret then false
  else hmacSha256Hex (keySecret.getD "") (orderId ++ "|" ++ paymentId) == signature

/-! ## Plan catalog (`PLAN_CONFIGS`) -/

/-- One entry of the plan catalog. -/
structure PlanConfig where
  name : String
  amount : Nat
  currency : String
  description : String
deriving DecidableEq

/-- Embedding of `PLAN_CONFIGS` from `src/payment-service.js` lines 20-39:
the catalog keyed by plan identifier, `none` for an unknown plan. -/
def PLAN_CONFIGS (plan : String) : Option PlanConfig :=
  if plan = "pro" then some ⟨"Pro", 100, "INR", "Most popular choice"⟩
  else if plan = "pro_plus" then some ⟨"Pro+", 100, "INR", "For advanced learners"⟩
  else if plan = "ultra" then some ⟨"Ultra", 100, "INR", "Power users with live tutor features"⟩
  else none

/-- Embedding of `getPlanDetails` (lines 218-220). -/
def getPlanDetails (plan : String) : Option PlanConfig :=
  PLAN_CONFIGS plan

/-! ## Order creator (`createRazorpayOrder`) -/

/-- JavaScript `.slice(0, n)` on a string: its first `n` characters. -/
def jsSlice (s : String) (n : Nat) : String :=
  String.mk (s.data.take n)

/-- The receipt string built at `src/payment-service.js` lines 56-58:
`` `ace_${plan}_${shortUserId}_${Date.now()}`.slice(0, 40) `` with
`shortUserId = userId.slice(0, 10)`.  `now` is the millisecond timestamp. -/
def mkReceipt (plan userId : String) (now : Nat) : String :=
  jsSlice ("ace_" ++ plan ++ "_" ++ jsSlice userId 10 ++ "_" ++ toString now) 40

/-- The request options sent to `razorpay.orders.create` (lines 60-70). -/
structure OrderOptions where
  amount : Nat
  currency : String
  receipt : String
  notes_plan : String
  notes_userId : String
  notes_userEmail : String
  notes_userName : String
deriving DecidableEq

/-- The gateway's order-create response (fields read by the code). -/
structure GatewayOrder where
  id : String
  amount : Nat
  currency : String
  receipt : String
  status : String
deriving DecidableEq

/-- Error taxonomy of `createRazorpayOrder`; `orderErrorMessage` gives the
message the code throws for each. -/
inductive OrderError where
  | configuration
  | invalidPlan (plan : String)
  | gateway (message : String)
deriving DecidableEq

/-- The thrown message for each `OrderError` (the catch at lines 84-89 passes
the original message through via `error.message`). -/
def orderErrorMessage : OrderError → String
  | .configuration => "Razorpay credentials not configured"
  | .invalidPlan plan => "Invalid plan: " ++ plan
  | .gateway message => message

/-- The normalized order returned on success (lines 74-83). -/
structure OrderResult where
  id : String
  amount : Nat
  currency : String
  receipt : String
  status : String
  plan : String
  planName : String
  planDescription : String
deriving DecidableEq

/-- Embedding of `createRazorpayOrder(plan, userId, userEmail, userName)`
(`src/payment-service.js` lines 44-90).  `keyId` and `keySecret` thread the
two `process.env` credentials, `now` the `Date.now()` timestamp, and
`gateway` the external `razorpay.orders.create` collaborator.  The second
component records the options of the gateway call that was made, `none` when
the function returned before calling the gateway. -/
def createRazorpayOrder (keyId keySecret : Option String)
    (gateway : OrderOptions → Except String GatewayOrder)
    (plan userId userEmail userName : String) (now : Nat) :
    Except OrderError OrderResult × Option OrderOptions :=
  if falsyStr keyId || falsyStr keySecret then
    (.error .configuration, none)
  else
    match PLAN_CONFIGS plan with
    | none => (.error (.invalidPlan plan), none)
    | some planConfig =>
        let receipt := mkReceipt plan userId now
        let options : OrderOptions :=
          ⟨planConfig.amount, planConfig.currency, receipt, plan, userId, userEmail, userName⟩
        match gateway options with
        | .error e => (.error (.gateway e), some options)
        | .ok order =>
            (.ok ⟨order.id, order.amount, order.currency, order.receipt, order.status,
                  plan, planConfig.name, planConfig.description⟩, some options)

/-! ## Database model (the three Supabase tables) -/

/-- A row of the `payments` table (the fields this code reads or writes). -/
structure PaymentRecord where
  user_id : String
  razorpay_order_id : String
  razorpay_payment_id : String
  razorpay_signature : String
  status : String
  plan_id : String
  updated_at : Nat
deriving DecidableEq

/-- A row of the `subscriptions` table. -/
structure SubscriptionRecord where
  user_id : String
  plan_id : String
  provider : String
  status : String
  razorpay_payment_id : String
  current_period_start : Nat
  current_period_end : Nat
deriving DecidableEq

/-- The three tables touched by reconciliation; `profiles` is the pairs
(user id, plan). -/
structure DbState where
  payments : List PaymentRecord
  subscriptions : List SubscriptionRecord
  profiles : List (String × String)
deriving DecidableEq

/-- The `payments` update of reconciliation: on every row matching
`razorpay_order_id = orderId` and `user_id = userId`, set the gateway payment
id, the signature, `status = 'captured'` and the update timestamp
(`src/payment-service.js` lines 144-153).  Zero matching rows is a no-op. -/
def updatePayments (l : List PaymentRecord)
    (orderId userId paymentId signature : String) (now : Nat) : List PaymentRecord :=
  l.map fun r =>
    if r.razorpay_order_id = orderId ∧ r.user_id = userId then
      { r with razorpay_payment_id := paymentId, razorpay_signature := signature,
               status := "captured", updated_at := now }
    else r

/-- The subscription row written by reconciliation (lines 163-171):
`status = 'active'`, `provider = 'razorpay'`, period start `now`, period end
`now` plus 30 days of milliseconds. -/
def subscriptionRecordFor (userId plan paymentId : String) (now : Nat) : SubscriptionRecord :=
  ⟨userId, plan, "razorpay", "active", paymentId, now, now + 30 * 24 * 60 * 60 * 1000⟩

/-- Upsert with conflict target `user_id` (`onConflict: 'user_id'`,
`ignoreDuplicates: false`): replace every row of the same user, or append
when the user has none. -/
def upsertSubscription (l : List SubscriptionRecord) (s : SubscriptionRecord) :
    List SubscriptionRecord :=
  if l.any (fun r => r.user_id == s.user_id) then
    l.map fun r => if r.user_id == s.user_id then s else r
  else l ++ [s]

/-- The `profiles` update (lines 179-182): set `plan` on every row whose id is
`userId`. -/
def updateProfiles (l : List (String × String)) (userId plan : String) :
    List (String × String) :=
  l.map fun p => if p.1 = userId then (p.1, plan) else p

/-! ## Payment reconciler (`recordPaymentSuccess`) -/

/-- The three store calls of reconciliation, in the order the code issues
them. -/
inductive StoreCall where
  | paymentUpdate
  | subscriptionUpsert
  | profileUpdate
deriving DecidableEq

/-- Which of the three store calls report an error on this run; models the
Supabase `{ error }` results. -/
structure DbFaults where
  paymentUpdateFails : Bool
  subscriptionUpsertFails : Bool
  profileUpdateFails : Bool
deriving DecidableEq

/-- All three store calls succeed. -/
def noFaults : DbFaults := ⟨false, false, false⟩

/-- Internal error taxonomy of `recordPaymentSuccess`; the outer catch at
lines 209-212 replaces every one of these with the one generic thrown
message (`recordPaymentSuccessThrown`). -/
inductive PaymentError where
  | missingParameters (orderIdP paymentIdP signatureP planP userIdP : Bool)
  | invalidSignature
  | invalidPlan (plan : String)
  | persistence (step : StoreCall)
deriving DecidableEq

/-- The message of the error each internal failure raises before the outer
catch rewrites it (lines 124, 132, 137, 157, 175, 186, 192). -/
def internalMessage : PaymentError → String
  | .missingParameters o p s pl u =>
      "Missing required parameters: orderId=" ++ toString o ++ ", paymentId=" ++ toString p ++
      ", signature=" ++ toString s ++ ", plan=" ++ toString pl ++ ", userId=" ++ toString u
  | .invalidSignature => "Invalid payment signature"
  | .invalidPlan plan => "Invalid plan: " ++ plan
  | .persistence .paymentUpdate =>
      "Payment verification succeeded but database update failed: Failed to update payment record"
  | .persistence .subscriptionUpsert =>
      "Payment verification succeeded but database update failed: Failed to create/update subscription"
  | .persistence .profileUpdate =>
      "Payment verification succeeded but database update failed: Failed to update user profile"

/-- The success value returned at lines 198-208. -/
structure SuccessResult where
  success : Bool
  orderId : String
  paymentId : String
  plan : String
  planName : String
  amount : Nat
  currency : String
  timestamp : Nat
  userId : String
deriving DecidableEq

/-- The success value for a resolved plan config. -/
def mkSuccessResult (orderId paymentId plan : String) (cfg : PlanConfig)
    (now : Nat) (userId : String) : SuccessResult :=
  ⟨true, orderId, paymentId, plan, cfg.name, cfg.amount, cfg.currency, now, userId⟩

instance {ε α : Type} [DecidableEq ε] [DecidableEq α] : DecidableEq (Except ε α) := fun a b =>
  match a, b with
  | .error x, .error y =>
      match decEq x y with
      | isTrue hxy => isTrue (hxy ▸ rfl)
      | isFalse hxy => isFalse fun c => hxy (Except.error.inj c)
  | .ok x, .ok y =>
      match decEq x y with
      | isTrue hxy => isTrue (hxy ▸ rfl)
      | isFalse hxy => isFalse fun c => hxy (Except.ok.inj c)
  | .error _, .ok _ => isFalse fun c => Except.noConfusion c
  | .ok _, .error _ => isFalse fun c => Except.noConfusion c

/-- The observable outcome of one `recordPaymentSuccess` call: its result (with
the internal error cause), the database state it leaves behind (store calls it
completed before a failure stay applied — there is no transaction), and the
trace of store calls it attempted, in order. -/
structure ReconcileOutcome where
  result : Except PaymentError SuccessResult
  db : DbState
  calls : List StoreCall
deriving DecidableEq

/-- Embedding of `recordPaymentSuccess({orderId, paymentId, signature, plan,
userId})` from `src/payment-service.js` lines 118-213.  `keySecret` threads
`process.env.RAZORPAY_KEY_SECRET`; `supabaseConfigured` tells whether the
`supabaseAdmin` client exists; `faults` tells which store calls report an
error; `now` is the call's timestamp.  In order: the five-parameter presence
check, signature verification, plan lookup, then (only when the client is
configured) payment update, subscription upsert and profile update, each
aborting the rest on error (the inner catch at lines 190-193 rethrows). -/
def recordPaymentSuccess (keySecret : Option String) (supabaseConfigured : Bool)
    (faults : DbFaults) (now : Nat)
    (orderId paymentId signature plan userId : String) (db : DbState) :
    ReconcileOutcome :=
  if orderId = "" ∨ paymentId = "" ∨ signature = "" ∨ plan = "" ∨ userId = "" then
    ⟨.error (.missingParameters (orderId != "") (paymentId != "") (signature != "")
              (plan != "") (userId != "")), db, []⟩
  else if verifyPaymentSignature keySecret orderId paymentId signature = false then
    ⟨.error .invalidSignature, db, []⟩
  else
    match PLAN_CONFIGS plan with
    | none => ⟨.error (.invalidPlan plan), db, []⟩
    | some planConfig =>
        if supabaseConfigured then
          if faults.paymentUpdateFails then
            ⟨.error (.persistence .paymentUpdate), db, [.paymentUpdate]⟩
          else
            let db1 := { db with
              payments := updatePayments db.payments orderId userId paymentId signature now }
            if faults.subscriptionUpsertFails then
              ⟨.error (.persistence .subscriptionUpsert), db1,
               [.paymentUpdate, .subscriptionUpsert]⟩
            else
              let db2 := { db1 with
                subscriptions := upsertSubscription db1.subscriptions
                  (subscriptionRecordFor userId plan paymentId now) }
              if faults.profileUpdateFails then
                ⟨.error (.persistence .profileUpdate), db2,
                 [.paymentUpdate, .subscriptionUpsert, .profileUpdate]⟩
              else
                let db3 := { db2 with profiles := updateProfiles db2.profiles userId plan }
                ⟨.ok (mkSuccessResult orderId paymentId plan planConfig now userId), db3,
                 [.paymentUpdate, .subscriptionUpsert, .profileUpdate]⟩
        else
          ⟨.ok (mkSuccessResult orderId paymentId plan planConfig now userId), db, []⟩

/-- What the caller of `recordPaymentSuccess` observes as the thrown value:
the outer catch (lines 209-212) replaces every internal error by
`new Error('Failed to record payment success')`. -/
def recordPaymentSuccessThrown (o : ReconcileOutcome) : Except String SuccessResult :=
  match o.result with
  | .error _ => .error "Failed to record payment success"
  | .ok r => .ok r

/-! ## HTTP boundary: the `POST /success` handler -/

/-- JavaScript `a || b` on strings wrapped as optional request fields: the
right operand when the left is absent or empty. -/
def jsOr (v : Option String) (d : String) : String :=
  match v with
  | none => d
  | some s => if s == "" then d else s

/-- The fields of a `POST /success` request the handler may read: the five
callback fields as they appear in the form body and in the query string
(`none` = not sent, `some ""` = sent empty; both are falsy to `||`). -/
structure CallbackReq where
  body_razorpay_payment_id : Option String
  body_razorpay_order_id : Option String
  body_razorpay_signature : Option String
  body_plan : Option String
  body_userId : Option String
  query_plan : Option String
  query_userId : Option String
  query_razorpay_payment_id : Option String
  query_razorpay_order_id : Option String
  query_razorpay_signature : Option String
deriving DecidableEq

/-- The five strings the handler extracts (server file lines 42-46):
`razorpay_payment_id`, `razorpay_order_id` and `razorpay_signature` are read
from the body only, defaulting to `''`; `plan` and `userId` fall back from the
body to the query string and then to `''`. -/
structure CallbackFields where
  paymentId : String
  orderId : String
  signature : String
  plan : String
  userId : String
deriving DecidableEq

/-- Field extraction of the `POST /success` handler. -/
def extractCallback (req : CallbackReq) : CallbackFields :=
  ⟨jsOr req.body_razorpay_payment_id "",
   jsOr req.body_razorpay_order_id "",
   jsOr req.body_razorpay_signature "",
   jsOr req.body_plan (jsOr req.query_plan ""),
   jsOr req.body_userId (jsOr req.query_userId "")⟩

/-- The handler's response: the redirect to `/success?paymentId=..&orderId=..
&signature=..&plan=..` carrying those four values, or the 500 error page. -/
inductive HttpResponse where
  | redirect (paymentId orderId signature plan : String)
  | serverError (message : String)
deriving DecidableEq

/-- The handler's own copy of the three store writes (server file lines
57-96): unlike `recordPaymentSuccess`, each error is only logged and the
remaining writes still run. -/
def handlerDbWrites (faults : DbFaults) (now : Nat)
    (orderId userId paymentId signature plan : String) (db : DbState) : DbState :=
  let db1 := if faults.paymentUpdateFails then db
    else { db with payments := updatePayments db.payments orderId userId paymentId signature now }
  let db2 := if faults.subscriptionUpsertFails then db1
    else { db1 with
      subscriptions := upsertSubscription db1.subscriptions
        (subscriptionRecordFor userId plan paymentId now) }
  if faults.profileUpdateFails then db2
  else { db2 with profiles := updateProfiles db2.profiles userId plan }

/-- Embedding of the `POST /success` handler (server file lines 40-104):
extract the callback fields, call `recordPaymentSuccess`; when it throws,
respond `500 'Payment verification failed.'`; when it returns, run the
handler's own log-and-continue store writes and redirect to the success page
carrying paymentId, orderId, signature and plan. -/
def handlePostSuccess (keySecret : Option String) (supabaseConfigured : Bool)
    (faults : DbFaults) (now : Nat) (req : CallbackReq) (db : DbState) :
    HttpResponse × DbState :=
  let f := extractCallback req
  let o := recordPaymentSuccess keySecret supabaseConfigured faults now
             f.orderId f.paymentId f.signature f.plan f.userId db
  match o.result with
  | .error _ => (.serverError "Payment verification failed.", o.db)
  | .ok _ =>
      let db2 := if supabaseConfigured then
          handlerDbWrites faults now f.orderId f.userId f.paymentId f.signature f.plan o.db
        else o.db
      (.redirect f.paymentId f.orderId f.signature f.plan, db2)

/-- The `/api/create-order` route's parameter check (server file line 116):
order creation requires only `plan` and `userId`. -/
def createOrderParamsPresent (plan userId : String) : Bool :=
  !(plan == "" || userId == "")

/-- The empty database. -/
def dbEmpty : DbState := ⟨[], [], []⟩

/-! ## Helper lemmas -/

/-- `.slice(0, n)` never yields more than `n` characters. -/
theorem jsSlice_length_le (s : String) (n : Nat) : (jsSlice s n).length ≤ n := by
  change (s.data.take n).length ≤ n
  rw [List.length_take]
  exact min_le_left _ _

/-- The HMAC-SHA256 of `"k"` over `"o|p"`, hex-encoded: a concrete valid
signature for order id `"o"`, payment id `"p"` under secret `"k"`, used by
the concrete witnesses below. -/
def validSigOP : String :=
  "b4a1eaa0d26e7d8900c5348a815f8db06e16c9ca68d61752c6bfc2d9b08e9660"

/-- The catalog entry of plan `"pro"`. -/
def proConfig : PlanConfig := ⟨"Pro", 100, "INR", "Most popular choice"⟩

/-- A valid, no-fault `recordPaymentSuccess` run with the Supabase client
configured performs exactly the three store writes in order and returns the
success value. -/
theorem recordPaymentSuccess_valid_run (keySecret : Option String) (now : Nat)
    (orderId paymentId signature plan userId : String) (db : DbState) (cfg : PlanConfig)
    (hmiss : ¬(orderId = "" ∨ paymentId = "" ∨ signature = "" ∨ plan = "" ∨ userId = ""))
    (hv : verifyPaymentSignature keySecret orderId paymentId signature = true)
    (hplan : PLAN_CONFIGS plan = some cfg) :
    recordPaymentSuccess keySecret true noFaults now orderId paymentId signature plan userId db =
      ⟨.ok (mkSuccessResult orderId paymentId plan cfg now userId),
       ⟨updatePayments db.payments orderId userId paymentId signature now,
        upsertSubscription db.subscriptions (subscriptionRecordFor userId plan paymentId now),
        updateProfiles db.profiles userId plan⟩,
       [.paymentUpdate, .subscriptionUpsert, .profileUpdate]⟩ := by
  simp only [recordPaymentSuccess, if_neg hmiss, hv, hplan, noFaults]
  simp

/-- Overwriting every matching row and then searching for a match finds the
replacement exactly when some row matched. -/
theorem find?_map_overwrite (l : List SubscriptionRecord) (s : SubscriptionRecord) :
    (l.map fun r => if r.user_id == s.user_id then s else r).find?
        (fun r => r.user_id == s.user_id) =
      if l.any (fun r => r.user_id == s.user_id) then some s else none := by
  induction l with
  | nil => rfl
  | cons a t ih =>
      simp only [List.map_cons, List.any_cons]
      by_cases hb : (a.user_id == s.user_id) = true
      · simp only [hb, Bool.true_or]
        exact List.find?_cons_of_pos _ (by simp)
      · have hb' : (a.user_id == s.user_id) = false := by simpa using hb
        simp only [hb', Bool.false_or]
        rw [List.find?_cons_of_neg _ (by simp [hb']), ih]

/-- Appending a fresh row (no existing match) and searching finds it. -/
theorem find?_append_new (l : List SubscriptionRecord) (s : SubscriptionRecord)
    (h : l.any (fun r => r.user_id == s.user_id) = false) :
    (l ++ [s]).find? (fun r => r.user_id == s.user_id) = some s := by
  induction l with
  | nil => simp [List.find?]
  | cons a t ih =>
      simp only [List.any_cons, Bool.or_eq_false_iff] at h
      simp [List.find?, h.1, ih h.2]

/-- After an upsert keyed by `user_id`, looking the user up finds exactly the
upserted row. -/
theorem find?_upsertSubscription (l : List SubscriptionRecord) (s : SubscriptionRecord)
    (u : String) (hu : s.user_id = u) :
    (upsertSubscription l s).find? (fun r => r.user_id == u) = some s := by
  subst hu
  unfold upsertSubscription
  cases hany : l.any (fun r => r.user_id == s.user_id) with
  | false =>
      rw [if_neg (by simp [hany])]
      exact find?_append_new l s hany
  | true =>
      rw [if_pos rfl, find?_map_overwrite, if_pos hany]

/-- Overwriting matching rows preserves how many rows match. -/
theorem length_filter_map_overwrite (l : List SubscriptionRecord) (s : SubscriptionRecord) :
    ((l.map fun r => if r.user_id == s.user_id then s else r).filter
        (fun r => r.user_id == s.user_id)).length =
      (l.filter (fun r => r.user_id == s.user_id)).length := by
  induction l with
  | nil => rfl
  | cons a t ih =>
      simp only [List.map_cons]
      by_cases hb : (a.user_id == s.user_id) = true
      · simp only [hb, if_true]
        have h1 : List.filter (fun r => r.user_id == s.user_id)
            (s :: List.map (fun r => if r.user_id == s.user_id then s else r) t) =
            s :: List.filter (fun r => r.user_id == s.user_id)
              (List.map (fun r => if r.user_id == s.user_id then s else r) t) :=
          List.filter_cons_of_pos (by simp)
        have h2 : List.filter (fun r => r.user_id == s.user_id) (a :: t) =
            a :: List.filter (fun r => r.user_id == s.user_id) t :=
          List.filter_cons_of_pos (by simp [hb])
        rw [h1, h2, List.length_cons, List.length_cons, ih]
      · have hb' : (a.user_id == s.user_id) = false := by simpa using hb
        simp only [hb', Bool.false_eq_true, if_false]
        have h1 : List.filter (fun r => r.user_id == s.user_id)
            (a :: List.map (fun r => if r.user_id == s.user_id then s else r) t) =
            List.filter (fun r => r.user_id == s.user_id)
              (List.map (fun r => if r.user_id == s.user_id then s else r) t) :=
          List.filter_cons_of_neg (by simp [hb'])
        have h2 : List.filter (fun r => r.user_id == s.user_id) (a :: t) =
            List.filter (fun r => r.user_id == s.user_id) t :=
          List.filter_cons_of_neg (by simp [hb'])
        rw [h1, h2, ih]

/-- A list none of whose elements satisfies the predicate filters to nil. -/
theorem filter_nil_of_any_false {α : Type} (p : α → Bool) (l : List α)
    (h : l.any p = false) : l.filter p = [] := by
  induction l with
  | nil => rfl
  | cons a t ih =>
      simp only [List.any_cons, Bool.or_eq_false_iff] at h
      simp [List.filter, h.1, ih h.2]

/-- A list some element of which satisfies the predicate filters to a
nonempty list. -/
theorem length_filter_pos_of_any {α : Type} (p : α → Bool) (l : List α)
    (h : l.any p = true) : 0 < (l.filter p).length := by
  induction l with
  | nil => simp at h
  | cons a t ih =>
      cases hb : p a with
      | true => simp [List.filter, hb]
      | false =>
          simp only [List.any_cons, hb, Bool.false_or] at h
          simpa [List.filter, hb] using ih h

/-- After an upsert keyed by `user_id`, a user who had at most one
subscription row has exactly one. -/
theorem length_filter_upsertSubscription (l : List SubscriptionRecord)
    (s : SubscriptionRecord) (u : String) (hu : s.user_id = u)
    (hle : (l.filter fun r => r.user_id == u).length ≤ 1) :
    ((upsertSubscription l s).filter fun r => r.user_id == u).length = 1 := by
  subst hu
  unfold upsertSubscription
  cases hany : l.any (fun r => r.user_id == s.user_id) with
  | false =>
      rw [if_neg (by simp [hany])]
      rw [List.filter_append, filter_nil_of_any_false _ _ hany]
      simp [List.filter]
  | true =>
      rw [if_pos rfl, length_filter_map_overwrite]
      have hpos := length_filter_pos_of_any _ _ hany
      omega

/-! ## Claim theorems -/

/-- C1: for every orderId, paymentId (empty ones included, with no special
case) and every non-empty secret, `verifyPaymentSignature` returns `true` iff
the supplied signature equals the lowercase hex HMAC-SHA256, keyed by the
secret, of the UTF-8 bytes of `orderId + "|" + paymentId`. -/
theorem verifySignature_true_iff_hmac (orderId paymentId sig secret : String)
    (hsec : secret ≠ "") :
    verifyPaymentSignature (some secret) orderId paymentId sig = true ↔
      sig = hmacSha256Hex secret (orderId ++ "|" ++ paymentId) := by
  have hb : (secret == "") = false := beq_eq_false_iff_ne.mpr hsec
  simp only [verifyPaymentSignature, falsyStr, hb, Bool.false_eq_true, if_false,
    Option.getD_some]
  rw [beq_iff_eq]
  exact eq_comm

/-- C1 witness: concrete check at secret `"k"`, orderId `"o"`, paymentId
`"p"` with the matching signature. -/
theorem verifySignature_true_iff_hmac_witness :
    verifyPaymentSignature (some "k") "o" "p" (hmacSha256Hex "k" ("o" ++ "|" ++ "p")) = true :=
  (verifySignature_true_iff_hmac "o" "p" (hmacSha256Hex "k" ("o" ++ "|" ++ "p")) "k"
    (by decide)).mpr rfl

/-- C8: `verifyPaymentSignature` always returns a boolean (the embedding is a
total function into `Bool`, mirroring the catch-all that turns any exception
into `false`), and it returns `false` when the secret is absent and when the
secret is empty. -/
theorem verifySignature_total_and_fail_closed (keySecret : Option String)
    (orderId paymentId sig : String) :
    (verifyPaymentSignature keySecret orderId paymentId sig = true ∨
     verifyPaymentSignature keySecret orderId paymentId sig = false) ∧
    verifyPaymentSignature none orderId paymentId sig = false ∧
    verifyPaymentSignature (some "") orderId paymentId sig = false := by
  refine ⟨?_, rfl, rfl⟩
  cases verifyPaymentSignature keySecret orderId paymentId sig
  · exact Or.inr rfl
  · exact Or.inl rfl

/-- C5: the options `createRazorpayOrder` sends to the gateway carry exactly
the receipt `` `ace_${plan}_${userId.slice(0,10)}_${now}` `` hard-truncated to
40 characters, so the receipt never exceeds 40 characters for any plan and
any userId. -/
theorem createOrder_receipt_bounded (keyId keySecret : Option String)
    (gateway : OrderOptions → Except String GatewayOrder)
    (plan userId userEmail userName : String) (now : Nat) (opts : OrderOptions)
    (hsent : (createRazorpayOrder keyId keySecret gateway plan userId userEmail
        userName now).2 = some opts) :
    opts.receipt = mkReceipt plan userId now ∧
    mkReceipt plan userId now =
      jsSlice ("ace_" ++ plan ++ "_" ++ jsSlice userId 10 ++ "_" ++ toString now) 40 ∧
    opts.receipt.length ≤ 40 := by
  simp only [createRazorpayOrder] at hsent
  split at hsent
  · exact absurd hsent (by simp)
  · split at hsent
    · exact absurd hsent (by simp)
    · split at hsent
      · have h := Option.some.inj hsent
        subst h
        exact ⟨rfl, rfl, jsSlice_length_le _ _⟩
      · have h := Option.some.inj hsent
        subst h
        exact ⟨rfl, rfl, jsSlice_length_le _ _⟩

/-- C5 witness: concrete order creation for plan `"pro"`, userId `"u"`,
timestamp 5 (gateway down, which still records the sent options). -/
theorem createOrder_receipt_bounded_witness :
    (⟨100, "INR", "ace_pro_u_5", "pro", "u", "", "Ace User"⟩ : OrderOptions).receipt =
      mkReceipt "pro" "u" 5 ∧
    mkReceipt "pro" "u" 5 =
      jsSlice ("ace_" ++ "pro" ++ "_" ++ jsSlice "u" 10 ++ "_" ++ toString 5) 40 ∧
    (⟨100, "INR", "ace_pro_u_5", "pro", "u", "", "Ace User"⟩ : OrderOptions).receipt.length ≤ 40 :=
  createOrder_receipt_bounded (some "rzp_test_key") (some "rzp_secret")
    (fun _ => .error "gateway down") "pro" "u" "" "Ace User" 5
    ⟨100, "INR", "ace_pro_u_5", "pro", "u", "", "Ace User"⟩ (by decide)

/-- C6: with credentials configured and a plan id outside the catalog,
`createRazorpayOrder` fails with the invalid-plan error and never calls the
gateway (the trace component is `none`). -/
theorem createOrder_unknown_plan_no_gateway_call (keyId keySecret : Option String)
    (gateway : OrderOptions → Except String GatewayOrder)
    (plan userId userEmail userName : String) (now : Nat)
    (hid : falsyStr keyId = false) (hsec : falsyStr keySecret = false)
    (hplan : PLAN_CONFIGS plan = none) :
    createRazorpayOrder keyId keySecret gateway plan userId userEmail userName now =
      (.error (.invalidPlan plan), none) := by
  simp [createRazorpayOrder, hid, hsec, hplan]

/-- C6 witness: concrete call with the unknown plan `"bogus"`. -/
theorem createOrder_unknown_plan_no_gateway_call_witness :
    createRazorpayOrder (some "rzp_test_key") (some "rzp_secret")
      (fun _ => .error "unreachable") "bogus" "user_1" "" "Ace User" 1700000000000 =
      (.error (.invalidPlan "bogus"), none) :=
  createOrder_unknown_plan_no_gateway_call (some "rzp_test_key") (some "rzp_secret")
    (fun _ => .error "unreachable") "bogus" "user_1" "" "Ace User" 1700000000000
    rfl rfl rfl

/-- C7: whenever any of the five reconciliation inputs is empty,
`recordPaymentSuccess` fails with the missing-parameters error before any
verification or store step: the outcome is the same for every secret and
every fault configuration, leaves the database untouched and attempts no
store call. -/
theorem reconcile_missing_params_rejected (keySecret : Option String) (sc : Bool)
    (faults : DbFaults) (now : Nat)
    (orderId paymentId signature plan userId : String) (db : DbState)
    (hmiss : orderId = "" ∨ paymentId = "" ∨ signature = "" ∨ plan = "" ∨ userId = "") :
    recordPaymentSuccess keySecret sc faults now orderId paymentId signature plan userId db =
      ⟨.error (.missingParameters (orderId != "") (paymentId != "") (signature != "")
        (plan != "") (userId != "")), db, []⟩ := by
  simp only [recordPaymentSuccess, if_pos hmiss]

/-- C7 witness: concrete call with an empty orderId. -/
theorem reconcile_missing_params_rejected_witness :
    recordPaymentSuccess (some "k") true noFaults 0 "" "pay_1" "sig_1" "pro" "user_1" dbEmpty =
      ⟨.error (.missingParameters false true true true true), dbEmpty, []⟩ :=
  reconcile_missing_params_rejected (some "k") true noFaults 0 "" "pay_1" "sig_1" "pro"
    "user_1" dbEmpty (Or.inl rfl)

/-- C10: every error `recordPaymentSuccess` lets escape to its caller carries
the one generic message `'Failed to record payment success'`, whatever the
internal cause was. -/
theorem reconcile_thrown_message_generic (keySecret : Option String) (sc : Bool)
    (faults : DbFaults) (now : Nat)
    (orderId paymentId signature plan userId : String) (db : DbState) (m : String)
    (hthrow : recordPaymentSuccessThrown (recordPaymentSuccess keySecret sc faults now
        orderId paymentId signature plan userId db) = .error m) :
    m = "Failed to record payment success" := by
  unfold recordPaymentSuccessThrown at hthrow
  split at hthrow
  · exact (Except.error.inj hthrow).symm
  · simp at hthrow

/-- C10 witness: a concrete failing call (missing orderId) throws the generic
message. -/
theorem reconcile_thrown_message_generic_witness :
    recordPaymentSuccessThrown (recordPaymentSuccess (some "k") true noFaults 0 "" "p" "s"
        "pro" "u" dbEmpty) = .error "Failed to record payment success" ∧
    "Failed to record payment success" = "Failed to record payment success" :=
  ⟨rfl, reconcile_thrown_message_generic (some "k") true noFaults 0 "" "p" "s" "pro" "u"
    dbEmpty "Failed to record payment success" rfl⟩

/-- C2 counterexample: an input on which signature verification fails (empty
signature, which can never equal a 64-character hex digest) but on which
`recordPaymentSuccess` fails with the missing-parameters error, not the
invalid-signature error — the parameter presence check runs first. -/
theorem reconcile_sigfail_counterexample :
    verifyPaymentSignature (some "k") "o" "p" "" = false ∧
    (recordPaymentSuccess (some "k") true noFaults 0 "o" "p" "" "pro" "u" dbEmpty).result =
      .error (.missingParameters true true false true true) ∧
    (recordPaymentSuccess (some "k") true noFaults 0 "o" "p" "" "pro" "u" dbEmpty).result ≠
      .error .invalidSignature := by
  refine ⟨by decide, rfl, by decide⟩

/-- C2 (amended): whenever signature verification fails, `recordPaymentSuccess`
leaves the database untouched and attempts no store call, whatever the
environment and fault configuration; and when moreover all five parameters
are nonempty, the failure is the invalid-signature error (when a parameter is
empty the call fails with the missing-parameters error instead, still without
touching any record). -/
theorem reconcile_sigfail_no_mutation (keySecret : Option String) (sc : Bool)
    (faults : DbFaults) (now : Nat)
    (orderId paymentId signature plan userId : String) (db : DbState)
    (hv : verifyPaymentSignature keySecret orderId paymentId signature = false) :
    (recordPaymentSuccess keySecret sc faults now orderId paymentId signature plan userId db).db = db ∧
    (recordPaymentSuccess keySecret sc faults now orderId paymentId signature plan userId db).calls = [] ∧
    (orderId ≠ "" → paymentId ≠ "" → signature ≠ "" → plan ≠ "" → userId ≠ "" →
      (recordPaymentSuccess keySecret sc faults now orderId paymentId signature plan userId db).result =
        .error .invalidSignature) := by
  by_cases hmiss : orderId = "" ∨ paymentId = "" ∨ signature = "" ∨ plan = "" ∨ userId = ""
  · refine ⟨?_, ?_, ?_⟩
    · simp only [recordPaymentSuccess, if_pos hmiss]
    · simp only [recordPaymentSuccess, if_pos hmiss]
    · intro h1 h2 h3 h4 h5
      rcases hmiss with h | h | h | h | h
      · exact absurd h h1
      · exact absurd h h2
      · exact absurd h h3
      · exact absurd h h4
      · exact absurd h h5
  · refine ⟨?_, ?_, ?_⟩
    · simp only [recordPaymentSuccess, if_neg hmiss, if_pos hv]
    · simp only [recordPaymentSuccess, if_neg hmiss, if_pos hv]
    · intro _ _ _ _ _
      simp only [recordPaymentSuccess, if_neg hmiss, if_pos hv]

/-- C2 witness: concrete tampered signature `"deadbeef"` for order `"o"`,
payment `"p"` under secret `"k"`. -/
theorem reconcile_sigfail_no_mutation_witness :
    (recordPaymentSuccess (some "k") true noFaults 7 "o" "p" "deadbeef" "pro" "u" dbEmpty).db = dbEmpty ∧
    (recordPaymentSuccess (some "k") true noFaults 7 "o" "p" "deadbeef" "pro" "u" dbEmpty).calls = [] ∧
    ("o" ≠ "" → "p" ≠ "" → "deadbeef" ≠ "" → "pro" ≠ "" → "u" ≠ "" →
      (recordPaymentSuccess (some "k") true noFaults 7 "o" "p" "deadbeef" "pro" "u" dbEmpty).result =
        .error .invalidSignature) :=
  reconcile_sigfail_no_mutation (some "k") true noFaults 7 "o" "p" "deadbeef" "pro" "u"
    dbEmpty (by decide)

/-- C3 counterexample: with the database client configured, a valid signature
and a known plan, a failing payment-update store call makes
`recordPaymentSuccess` fail (it does not return a success result), and the
two subsequent store steps are not attempted. -/
theorem reconcile_dbfault_counterexample :
    verifyPaymentSignature (some "k") "o" "p" validSigOP = true ∧
    (recordPaymentSuccess (some "k") true ⟨true, false, false⟩ 0 "o" "p" validSigOP
        "pro" "u" dbEmpty).result = .error (.persistence .paymentUpdate) ∧
    (recordPaymentSuccess (some "k") true ⟨true, false, false⟩ 0 "o" "p" validSigOP
        "pro" "u" dbEmpty).calls = [.paymentUpdate] := by
  refine ⟨by decide, by decide, by decide⟩

/-- C3 (amended): with a valid signature and a known plan, reconciliation
returns success (and touches nothing) when the database client is absent; but
when the client is configured, a failing store call is propagated as a
failure of the whole call and aborts the subsequent steps — a failing payment
update leaves the database untouched with only that call attempted, and a
failing subscription upsert keeps the completed payment update, attempts no
profile update, and still fails the call. -/
theorem reconcile_db_unavailable_semantics (keySecret : Option String) (b1 b2 b3 : Bool)
    (now : Nat) (orderId paymentId signature plan userId : String) (db : DbState)
    (cfg : PlanConfig)
    (hmiss : ¬(orderId = "" ∨ paymentId = "" ∨ signature = "" ∨ plan = "" ∨ userId = ""))
    (hv : verifyPaymentSignature keySecret orderId paymentId signature = true)
    (hplan : PLAN_CONFIGS plan = some cfg) :
    (recordPaymentSuccess keySecret false ⟨b1, b2, b3⟩ now orderId paymentId signature plan userId db =
      ⟨.ok (mkSuccessResult orderId paymentId plan cfg now userId), db, []⟩) ∧
    (recordPaymentSuccess keySecret true ⟨true, b2, b3⟩ now orderId paymentId signature plan userId db =
      ⟨.error (.persistence .paymentUpdate), db, [.paymentUpdate]⟩) ∧
    (recordPaymentSuccess keySecret true ⟨false, true, b3⟩ now orderId paymentId signature plan userId db =
      ⟨.error (.persistence .subscriptionUpsert),
       ⟨updatePayments db.payments orderId userId paymentId signature now,
        db.subscriptions, db.profiles⟩,
       [.paymentUpdate, .subscriptionUpsert]⟩) := by
  have hvf : ¬(verifyPaymentSignature keySecret orderId paymentId signature = false) := by
    rw [hv]; simp
  refine ⟨?_, ?_, ?_⟩ <;>
    simp only [recordPaymentSuccess, if_neg hmiss, if_neg hvf, hplan,
      Bool.false_eq_true, eq_self_iff_true, if_true, if_false]

/-- C3 witness: concrete valid callback for `"o"`, `"p"`, secret `"k"`,
plan `"pro"`, in the three client/fault configurations of the theorem. -/
theorem reconcile_db_unavailable_semantics_witness :
    (recordPaymentSuccess (some "k") false ⟨false, false, false⟩ 0 "o" "p" validSigOP "pro" "u" dbEmpty =
      ⟨.ok (mkSuccessResult "o" "p" "pro" proConfig 0 "u"), dbEmpty, []⟩) ∧
    (recordPaymentSuccess (some "k") true ⟨true, false, false⟩ 0 "o" "p" validSigOP "pro" "u" dbEmpty =
      ⟨.error (.persistence .paymentUpdate), dbEmpty, [.paymentUpdate]⟩) ∧
    (recordPaymentSuccess (some "k") true ⟨false, true, false⟩ 0 "o" "p" validSigOP "pro" "u" dbEmpty =
      ⟨.error (.persistence .subscriptionUpsert),
       ⟨updatePayments dbEmpty.payments "o" "u" "p" validSigOP 0,
        dbEmpty.subscriptions, dbEmpty.profiles⟩,
       [.paymentUpdate, .subscriptionUpsert]⟩) :=
  reconcile_db_unavailable_semantics (some "k") false false false 0 "o" "p" validSigOP
    "pro" "u" dbEmpty proConfig (by decide) (by decide) rfl

/-- C4 counterexample: a callback whose five fields all arrive in the query
string (none in the body), carrying a perfectly valid signature.  The claim
predicts a query-string fallback for every missing body field and a redirect
regardless of outcome; the handler instead reads the three `razorpay_*`
fields from the body only, so reconciliation fails on empty parameters and
the response is the 500 error page, not a redirect. -/
theorem post_success_counterexample :
    verifyPaymentSignature (some "k") "o" "p" validSigOP = true ∧
    handlePostSuccess (some "k") false noFaults 0
      ⟨none, none, none, none, none, some "pro", some "u",
       some "p", some "o", some validSigOP⟩ dbEmpty =
      (.serverError "Payment verification failed.", dbEmpty) := by
  exact ⟨by decide, by decide⟩

/-- C4 (amended): the `POST /success` handler never reads the three
`razorpay_*` fields from the query string (its outcome is invariant in them);
only `plan` and `userId` fall back from the body to the query string.  The
redirect carrying paymentId, orderId, signature and plan is issued exactly
when `recordPaymentSuccess` returns (even if the handler's own subsequent
store writes fail); when `recordPaymentSuccess` throws, the handler responds
`500 'Payment verification failed.'` instead of redirecting. -/
theorem post_success_semantics (keySecret : Option String) (sc : Bool) (faults : DbFaults)
    (now : Nat) (req : CallbackReq) (db : DbState) (qp qo qs : Option String) :
    (handlePostSuccess keySecret sc faults now
        { req with query_razorpay_payment_id := qp, query_razorpay_order_id := qo,
                   query_razorpay_signature := qs } db =
      handlePostSuccess keySecret sc faults now req db) ∧
    (req.body_plan = none → (extractCallback req).plan = jsOr req.query_plan "") ∧
    (req.body_userId = none → (extractCallback req).userId = jsOr req.query_userId "") ∧
    (∀ e, (recordPaymentSuccess keySecret sc faults now (extractCallback req).orderId
        (extractCallback req).paymentId (extractCallback req).signature
        (extractCallback req).plan (extractCallback req).userId db).result = .error e →
      handlePostSuccess keySecret sc faults now req db =
        (.serverError "Payment verification failed.",
         (recordPaymentSuccess keySecret sc faults now (extractCallback req).orderId
           (extractCallback req).paymentId (extractCallback req).signature
           (extractCallback req).plan (extractCallback req).userId db).db)) ∧
    (∀ r, (recordPaymentSuccess keySecret sc faults now (extractCallback req).orderId
        (extractCallback req).paymentId (extractCallback req).signature
        (extractCallback req).plan (extractCallback req).userId db).result = .ok r →
      (handlePostSuccess keySecret sc faults now req db).1 =
        .redirect (extractCallback req).paymentId (extractCallback req).orderId
          (extractCallback req).signature (extractCallback req).plan) := by
  obtain ⟨b1, b2, b3, b4, b5, q1, q2, q3, q4, q5⟩ := req
  refine ⟨rfl, ?_, ?_, ?_, ?_⟩
  · intro h
    have hb : b4 = none := h
    simp only [extractCallback]
    rw [hb]
    rfl
  · intro h
    have hb : b5 = none := h
    simp only [extractCallback]
    rw [hb]
    rfl
  · intro e he
    simp only [handlePostSuccess]
    rw [he]
  · intro r hr
    simp only [handlePostSuccess]
    rw [hr]

/-- C4 witness: a complete, valid form body redirects to the success page
carrying the four callback values. -/
theorem post_success_semantics_witness :
    (handlePostSuccess (some "k") false noFaults 0
        ⟨some "p", some "o", some validSigOP, some "pro", some "u",
         none, none, none, none, none⟩ dbEmpty).1 =
      HttpResponse.redirect "p" "o" validSigOP "pro" :=
  (post_success_semantics (some "k") false noFaults 0
      ⟨some "p", some "o", some validSigOP, some "pro", some "u",
       none, none, none, none, none⟩ dbEmpty none none none).2.2.2.2
    (mkSuccessResult "o" "p" "pro" proConfig 0 "u") (by decide)

/-- C9: running a valid reconciliation twice with the same inputs leaves, for
that user, exactly one subscription row: the one of the second run — plan,
provider `razorpay`, status `active`, the gateway payment id, period start at
the second run's timestamp and period end 30 days later — identical to the
row a single run at the second timestamp produces; the upsert is keyed by
userId, so the previous window is overwritten and the user never holds two
subscription rows. -/
theorem reconcile_idempotent_upsert (keySecret : Option String) (t1 t2 : Nat)
    (orderId paymentId signature plan userId : String) (db : DbState) (cfg : PlanConfig)
    (hmiss : ¬(orderId = "" ∨ paymentId = "" ∨ signature = "" ∨ plan = "" ∨ userId = ""))
    (hv : verifyPaymentSignature keySecret orderId paymentId signature = true)
    (hplan : PLAN_CONFIGS plan = some cfg)
    (hone : (db.subscriptions.filter fun r => r.user_id == userId).length ≤ 1) :
    ((recordPaymentSuccess keySecret true noFaults t2 orderId paymentId signature plan userId
        (recordPaymentSuccess keySecret true noFaults t1 orderId paymentId signature plan
          userId db).db).db.subscriptions.find? (fun r => r.user_id == userId) =
      some (subscriptionRecordFor userId plan paymentId t2)) ∧
    (((recordPaymentSuccess keySecret true noFaults t2 orderId paymentId signature plan userId
        (recordPaymentSuccess keySecret true noFaults t1 orderId paymentId signature plan
          userId db).db).db.subscriptions.filter (fun r => r.user_id == userId)).length = 1) ∧
    ((recordPaymentSuccess keySecret true noFaults t2 orderId paymentId signature plan userId
        (recordPaymentSuccess keySecret true noFaults t1 orderId paymentId signature plan
          userId db).db).db.subscriptions.find? (fun r => r.user_id == userId) =
      (recordPaymentSuccess keySecret true noFaults t2 orderId paymentId signature plan
        userId db).db.subscriptions.find? (fun r => r.user_id == userId)) := by
  have e1 := recordPaymentSuccess_valid_run keySecret t1 orderId paymentId signature plan
    userId db cfg hmiss hv hplan
  simp only [e1]
  have e2 := recordPaymentSuccess_valid_run keySecret t2 orderId paymentId signature plan
    userId ⟨updatePayments db.payments orderId userId paymentId signature t1,
      upsertSubscription db.subscriptions (subscriptionRecordFor userId plan paymentId t1),
      updateProfiles db.profiles userId plan⟩ cfg hmiss hv hplan
  have e3 := recordPaymentSuccess_valid_run keySecret t2 orderId paymentId signature plan
    userId db cfg hmiss hv hplan
  simp only [e2, e3]
  refine ⟨find?_upsertSubscription _ _ _ rfl, ?_, ?_⟩
  · exact length_filter_upsertSubscription _ _ _ rfl
      (le_of_eq (length_filter_upsertSubscription _ _ _ rfl hone))
  · rw [find?_upsertSubscription
        (upsertSubscription db.subscriptions (subscriptionRecordFor userId plan paymentId t1))
        (subscriptionRecordFor userId plan paymentId t2) userId rfl,
      find?_upsertSubscription db.subscriptions
        (subscriptionRecordFor userId plan paymentId t2) userId rfl]

/-- C9 witness: two concrete valid reconciliations (timestamps 0 and 5) for
user `"u"`, plan `"pro"`, starting from the empty database. -/
theorem reconcile_idempotent_upsert_witness :
    ((recordPaymentSuccess (some "k") true noFaults 5 "o" "p" validSigOP "pro" "u"
        (recordPaymentSuccess (some "k") true noFaults 0 "o" "p" validSigOP "pro"
          "u" dbEmpty).db).db.subscriptions.find? (fun r => r.user_id == "u") =
      some (subscriptionRecordFor "u" "pro" "p" 5)) ∧
    (((recordPaymentSuccess (some "k") true noFaults 5 "o" "p" validSigOP "pro" "u"
        (recordPaymentSuccess (some "k") true noFaults 0 "o" "p" validSigOP "pro"
          "u" dbEmpty).db).db.subscriptions.filter (fun r => r.user_id == "u")).length = 1) ∧
    ((recordPaymentSuccess (some "k") true noFaults 5 "o" "p" validSigOP "pro" "u"
        (recordPaymentSuccess (some "k") true noFaults 0 "o" "p" validSigOP "pro"
          "u" dbEmpty).db).db.subscriptions.find? (fun r => r.user_id == "u") =
      (recordPaymentSuccess (some "k") true noFaults 5 "o" "p" validSigOP "pro"
        "u" dbEmpty).db.subscriptions.find? (fun r => r.user_id == "u")) :=
  reconcile_idempotent_upsert (some "k") 0 5 "o" "p" validSigOP "pro" "u" dbEmpty proConfig
    (by decide) (by decide) rfl (by decide)

end AcePayments
